import Mathlib

/-!
Shallow embedding of the momentum_be AI summary pipeline
(`src/services/ai_summary_pipeline.py`) and of the summary-listing endpoint
(`src/routers/recall.py`, `get_meeting_summaries_without_bot_id`), with
theorems settling the frozen claims about the Transcript Normalizer, the
Summary Extractor, the Summary Persister and the pipeline driver.

Modelling conventions:
* Python dictionaries that hold JSON data are modelled by the inductive
  `Json`; `json.loads` is modelled by `jsonLoads`, a JSON parser covering
  the JSON subset exercised by the pipeline (objects, arrays, strings
  without escape sequences, integers, booleans, null); `json.dumps` is
  modelled by `Json.dumps`.
* Python exceptions are modelled by `Option`/`Except`: a `none`/`.error`
  result marks the place where the Python code raises.
* The relative timestamps (floats in Python) are modelled as `Int`; the
  claims only depend on their linear order.
* Database inserts are modelled as a list of (table name, row) pairs
  produced by the function instead of performed side effects.
-/

namespace Momentum

/-- JSON values as produced by Python's `json.loads`: the currency of the
pipeline's structured summaries. -/
inductive Json where
  | null
  | bool (b : Bool)
  | num (n : Int)
  | str (s : String)
  | arr (elems : List Json)
  | obj (fields : List (String × Json))

/-- Python's `str.strip()` whitespace test (space, tab, newline, carriage
return, vertical tab, form feed). -/
def pyIsSpace (c : Char) : Bool :=
  c = ' ' || c = '\t' || c = '\n' || c = '\r' || c = '\x0b' || c = '\x0c'

/-- Strip `pyIsSpace` characters from both ends of a character list. -/
def stripChars (cs : List Char) : List Char :=
  ((cs.dropWhile pyIsSpace).reverse.dropWhile pyIsSpace).reverse

/-- Python's `s.strip()`. -/
def pyStrip (s : String) : String := String.mk (stripChars s.data)

/-- Python's `s.startswith(p)`. -/
def pyStartswith (s p : String) : Bool := p.data.isPrefixOf s.data

/-- Python's `s.endswith(p)`. -/
def pyEndswith (s p : String) : Bool := p.data.reverse.isPrefixOf s.data.reverse

/-- Python's slice `s[n:]`. -/
def pyDrop (s : String) (n : Nat) : String := String.mk (s.data.drop n)

/-- Python's slice `s[:-n]` for `n ≤ len(s)`. -/
def pyDropRight (s : String) (n : Nat) : String :=
  String.mk ((s.data.reverse.drop n).reverse)

/-- JSON insignificant whitespace, skipped between tokens by `json.loads`. -/
def skipWs (cs : List Char) : List Char :=
  cs.dropWhile fun c => c = ' ' || c = '\t' || c = '\n' || c = '\r'

/-- Scan a JSON string literal body (opening quote already consumed); returns
the content and the remaining input. -/
def takeStringLit : List Char → Option (List Char × List Char)
  | [] => none
  | c :: cs =>
    if c = '"' then some ([], cs)
    else
      match takeStringLit cs with
      | some (s, rest) => some (c :: s, rest)
      | none => none

/-- Scan a maximal run of decimal digits. -/
def takeDigits : List Char → List Char × List Char
  | [] => ([], [])
  | c :: cs =>
    if c.isDigit then
      let p := takeDigits cs
      (c :: p.1, p.2)
    else ([], c :: cs)

/-- Decimal value of a digit run. -/
def digitsToNat (ds : List Char) : Nat :=
  ds.foldl (fun acc c => acc * 10 + (c.toNat - 48)) 0

mutual

/-- Parse one JSON value; fuel bounds the recursion depth. -/
def parseValue : Nat → List Char → Option (Json × List Char)
  | 0, _ => none
  | fuel + 1, cs =>
    match skipWs cs with
    | [] => none
    | c :: rest =>
      if c = '"' then
        match takeStringLit rest with
        | some (s, r) => some (Json.str (String.mk s), r)
        | none => none
      else if c = 't' then
        match rest with
        | 'r' :: 'u' :: 'e' :: r => some (Json.bool true, r)
        | _ => none
      else if c = 'f' then
        match rest with
        | 'a' :: 'l' :: 's' :: 'e' :: r => some (Json.bool false, r)
        | _ => none
      else if c = 'n' then
        match rest with
        | 'u' :: 'l' :: 'l' :: r => some (Json.null, r)
        | _ => none
      else if c = '[' then
        match skipWs rest with
        | ']' :: r => some (Json.arr [], r)
        | r => match parseElems fuel r with
          | some (es, r2) => some (Json.arr es, r2)
          | none => none
      else if c = '\x7b' then
        match skipWs rest with
        | '\x7d' :: r => some (Json.obj [], r)
        | r => match parseFields fuel r with
          | some (fs, r2) => some (Json.obj fs, r2)
          | none => none
      else if c = '-' then
        match takeDigits rest with
        | ([], _) => none
        | (ds, r) => some (Json.num (-(digitsToNat ds : Int)), r)
      else if c.isDigit then
        let p := takeDigits (c :: rest)
        some (Json.num (digitsToNat p.1), p.2)
      else none

/-- Parse the elements of a non-empty JSON array up to the closing bracket. -/
def parseElems : Nat → List Char → Option (List Json × List Char)
  | 0, _ => none
  | fuel + 1, cs =>
    match parseValue fuel cs with
    | none => none
    | some (v, rest) =>
      match skipWs rest with
      | ',' :: r =>
        match parseElems fuel r with
        | some (vs, r2) => some (v :: vs, r2)
        | none => none
      | ']' :: r => some ([v], r)
      | _ => none

/-- Parse the fields of a non-empty JSON object up to the closing brace. -/
def parseFields : Nat → List Char → Option (List (String × Json) × List Char)
  | 0, _ => none
  | fuel + 1, cs =>
    match skipWs cs with
    | '"' :: rest =>
      match takeStringLit rest with
      | none => none
      | some (k, r) =>
        match skipWs r with
        | ':' :: r2 =>
          match parseValue fuel r2 with
          | none => none
          | some (v, r3) =>
            match skipWs r3 with
            | ',' :: r4 =>
              match parseFields fuel r4 with
              | some (fs, r5) => some ((String.mk k, v) :: fs, r5)
              | none => none
            | '\x7d' :: r4 => some ([(String.mk k, v)], r4)
            | _ => none
        | _ => none
    | _ => none

end

/-- Python's `json.loads`: parse a complete JSON document, rejecting
trailing garbage. -/
def jsonLoads (s : String) : Option Json :=
  match parseValue (2 * s.data.length + 2) s.data with
  | some (v, rest) => if skipWs rest = [] then some v else none
  | none => none

mutual

/-- Python's `json.dumps` with default separators, on the values the
pipeline serializes (whose strings contain no characters needing escapes). -/
def Json.dumps : Json → String
  | Json.null => "null"
  | Json.bool true => "true"
  | Json.bool false => "false"
  | Json.num n => toString n
  | Json.str s => "\"" ++ s ++ "\""
  | Json.arr es => "[" ++ String.intercalate ", " (dumpsList es) ++ "]"
  | Json.obj fs => "\x7b" ++ String.intercalate ", " (dumpsFields fs) ++ "\x7d"

/-- Serialize a list of JSON values. -/
def dumpsList : List Json → List String
  | [] => []
  | v :: vs => Json.dumps v :: dumpsList vs

/-- Serialize the fields of a JSON object. -/
def dumpsFields : List (String × Json) → List String
  | [] => []
  | kv :: fs => ("\"" ++ kv.1 ++ "\": " ++ Json.dumps kv.2) :: dumpsFields fs

end

/-- Python's `d.get(key, default)` on a value expected to be a dict;
`none` models the `AttributeError` raised when `d` is not a dict. -/
def dictGet (j : Json) (key : String) (dflt : Json) : Option Json :=
  match j with
  | Json.obj fields => some ((((fields.find? fun kv => kv.1 == key).map Prod.snd)).getD dflt)
  | _ => none

/-- The `participant` object carried by a transcript payload; the code reads
its `name` field. A missing or falsy participant is modelled as `none` at the
use site. -/
structure Participant where
  name : String
deriving DecidableEq

/-- One entry of a payload's `words` list. `start_timestamp` is the value of
`word["start_timestamp"]["relative"]` when the key is present; `is_final` is
the value of `word["is_final"]` when present. -/
structure PyWord where
  text : String
  start_timestamp : Option Int
  is_final : Option Bool
deriving DecidableEq

/-- The `transcript_data` payload of one persisted fragment. `speaker` and
`text` model the fields carried by flat utterance-like payloads; `words`
models the embedded word list; `start_timestamp` is the fragment-level
`start_timestamp.relative` value. Absent keys are `none`. -/
structure TranscriptData where
  speaker : Option String := none
  text : Option String := none
  participant : Option Participant := none
  words : Option (List PyWord) := none
  start_timestamp : Option Int := none
deriving DecidableEq

/-- One row of the `meeting_transcripts` table as consumed by
`_process_transcript_data`: the payload plus the row-level `is_final` read by
`utterance.get("is_final", False)`. -/
structure Utterance where
  transcript_data : TranscriptData
  is_final : Option Bool := none
deriving DecidableEq

/-- One element of the `all_words` accumulator built by
`_process_transcript_data`. -/
structure NormalizedWord where
  text : String
  speaker : Option String
  timestamp : Int
  is_final : Bool
deriving DecidableEq

/-- The per-utterance body of the `for utterance in transcripts` loop of
`_process_transcript_data`: words are extracted only from a payload carrying
a non-empty `words` list; the speaker comes from the `participant` object
when one is present. -/
def extract_words (u : Utterance) : List NormalizedWord :=
  let speaker_name : Option String := u.transcript_data.participant.map Participant.name
  match u.transcript_data.words with
  | some (w :: ws) =>
    (w :: ws).map fun word =>
      { text := word.text
        speaker := speaker_name
        timestamp := word.start_timestamp.getD (u.transcript_data.start_timestamp.getD 0)
        is_final := word.is_final.getD (u.is_final.getD false) }
  | _ => []

/-- Python's `all_words.sort(key=lambda x: x["timestamp"])`: a stable sort
on the timestamp key, modelled by insertion sort (stable and sorted, hence
extensionally the same function as Python's stable sort; see
`sort_words_pairwise`, `sort_words_perm` and `sort_words_filter_timestamp`). -/
def sort_words (ws : List NormalizedWord) : List NormalizedWord :=
  ws.insertionSort fun a b => a.timestamp ≤ b.timestamp

/-- The sorted `all_words` list of `_process_transcript_data`. -/
def normalizer_all_words (transcripts : List Utterance) : List NormalizedWord :=
  sort_words (transcripts.flatMap extract_words)

/-- The `words_to_process` list of `_process_transcript_data`: the final
words when at least one word is final, otherwise all words. -/
def normalizer_selected_words (transcripts : List Utterance) : List NormalizedWord :=
  let all_words := normalizer_all_words transcripts
  let final_words := all_words.filter fun w => w.is_final
  if final_words.isEmpty then all_words else final_words

/-- One entry of the `grouped_transcript` accumulator: a speaker and the
texts of that speaker's consecutive words. -/
structure SpeakerTurn where
  speaker : Option String
  words : List String
deriving DecidableEq

/-- The grouping loop of `_process_transcript_data`. The accumulator keeps
the current turn at its head; `none` models the `IndexError` raised by
`grouped_transcript[-1]` when the first word's speaker equals the initial
`current_speaker = None`. -/
def group_words : List NormalizedWord → Option String → List SpeakerTurn → Option (List SpeakerTurn)
  | [], _, acc => some acc.reverse
  | w :: ws, cur, acc =>
    if w.speaker ≠ cur then
      group_words ws w.speaker ({ speaker := w.speaker, words := [w.text] } :: acc)
    else
      match acc with
      | [] => none
      | t :: ts => group_words ws cur ({ t with words := t.words ++ [w.text] } :: ts)

/-- Python's rendering of a value inside an f-string: `None` prints as the
text "None". -/
def pyStrOfSpeaker : Option String → String
  | none => "None"
  | some s => s

/-- The final rendering step of `_process_transcript_data`. -/
def render_transcript (turns : List SpeakerTurn) : String :=
  String.intercalate "\n"
    (turns.map fun t => pyStrOfSpeaker t.speaker ++ ": " ++ String.intercalate " " t.words)

/-- `_process_transcript_data`: extract, sort, filter by finality, group by
speaker and render. `none` models the `IndexError` described at
`group_words`. -/
def process_transcript_data (transcripts : List Utterance) : Option String :=
  (group_words (normalizer_selected_words transcripts) none []).map render_transcript

/-- The text of the extraction prompt before the spliced transcript. -/
def gemini_prompt_head : String :=
  "\nYou are an expert meeting analyst. Analyze the following meeting transcript and extract structured information.\n\nTRANSCRIPT:\n"

/-- The text of the extraction prompt after the spliced transcript. -/
def gemini_prompt_tail : String :=
  "\n\nPlease provide a structured analysis in the following JSON format:\n\n\x7b\n    \"overview\": \"Brief overview of the meeting\",\n    \"action_items\": [\n        \x7b\n            \"description\": \"Action item description\",\n            \"owner\": \"Person responsible\",\n            \"due_date\": \"Due date if mentioned (YYYY-MM-DD format)\",\n            \"priority\": \"high/medium/low\",\n            \"status\": \"pending\"\n        \x7d\n    ],\n    \"key_decisions\": [\n        \x7b\n            \"decision\": \"Decision made\",\n            \"context\": \"Context around the decision\",\n            \"impact\": \"Impact of the decision\"\n        \x7d\n    ],\n    \"key_takeaways\": [\n        \"Key takeaway 1\",\n        \"Key takeaway 2\"\n    ],\n    \"discussion_points\": [\n        \x7b\n            \"topic\": \"Discussion topic\",\n            \"summary\": \"Summary of discussion\",\n            \"participants\": [\"Participant names\"]\n        \x7d\n    ],\n    \"jargon_clarifications\": [\n        \x7b\n            \"term\": \"Jargon or acronym\",\n            \"clarification\": \"Explanation of the term\"\n        \x7d\n    ],\n    \"themes\": [\n        \"Theme 1\",\n        \"Theme 2\"\n    ],\n    \"context_group\": \"Suggested context group identifier (e.g., \x27product-development\x27, \x27sales-review\x27, \x27team-sync\x27)\"\n\x7d\n\nReturn ONLY the JSON object, no additional text.\n"

/-- The prompt built by `_extract_structured_summary` around the transcript
text. -/
def gemini_prompt (transcript_text : String) : String :=
  gemini_prompt_head ++ transcript_text ++ gemini_prompt_tail

/-- The fallback structure returned by `_extract_structured_summary` from
its exception handler. -/
def fallback_structure : Json :=
  Json.obj [
    ("overview", Json.str "Error processing transcript"),
    ("action_items", Json.arr []),
    ("key_decisions", Json.arr []),
    ("key_takeaways", Json.arr []),
    ("discussion_points", Json.arr []),
    ("jargon_clarifications", Json.arr []),
    ("themes", Json.arr []),
    ("context_group", Json.str "general")]

/-- The response-cleaning lines of `_extract_structured_summary`: strip the
response, drop a leading markdown fence "```json" and a trailing "```" when
present, and strip again before parsing. -/
def clean_model_response (response : String) : String :=
  let r1 := pyStrip response
  let r2 := if pyStartswith r1 "```json" then pyDrop r1 7 else r1
  let r3 := if pyEndswith r2 "```" then pyDropRight r2 3 else r2
  pyStrip r3

/-- `_extract_structured_summary`. The external model call
(`_call_gemini_api`) is a parameter returning either the response text or a
raised exception; the whole body sits inside one `try` whose handler returns
`fallback_structure`, so both a raised model call and a JSON parse failure
land in the fallback. The second component counts the model calls made. -/
def extract_structured_summary (model : String → Except String String)
    (transcript_text : String) : Json × Nat :=
  match model (gemini_prompt transcript_text) with
  | Except.error _ => (fallback_structure, 1)
  | Except.ok response =>
    match jsonLoads (clean_model_response response) with
    | some structured_data => (structured_data, 1)
    | none => (fallback_structure, 1)

/-- A database insert performed by the pipeline: table name and row. -/
abbrev Insert := String × List (String × Json)

/-- Python's `for item in d.get(key, [])` entry point: the stored value must
be a list; `none` models the exception raised otherwise (the claims only
evaluate list-valued or absent fields). -/
def getList (j : Json) (key : String) : Option (List Json) :=
  match dictGet j key (Json.arr []) with
  | some (Json.arr xs) => some xs
  | _ => none

/-- One `action_items` row built by `_save_summary_components`. -/
def action_item_row (meeting_id now : String) (item : Json) : Option (List (String × Json)) :=
  match dictGet item "description" (Json.str ""), dictGet item "owner" (Json.str ""),
        dictGet item "due_date" Json.null, dictGet item "priority" (Json.str "medium"),
        dictGet item "status" (Json.str "pending") with
  | some d, some o, some dd, some p, some s =>
    some [("meeting_id", Json.str meeting_id), ("description", d), ("owner", o),
          ("due_date", dd), ("priority", p), ("status", s), ("created_at", Json.str now)]
  | _, _, _, _, _ => none

/-- One `meeting_decisions` row built by `_save_summary_components`. -/
def decision_row (meeting_id now : String) (item : Json) : Option (List (String × Json)) :=
  match dictGet item "decision" (Json.str ""), dictGet item "context" (Json.str ""),
        dictGet item "impact" (Json.str "") with
  | some d, some c, some i =>
    some [("meeting_id", Json.str meeting_id), ("decision", d), ("context", c),
          ("impact", i), ("created_at", Json.str now)]
  | _, _, _ => none

/-- One `meeting_discussions` row built by `_save_summary_components`. -/
def discussion_row (meeting_id now : String) (item : Json) : Option (List (String × Json)) :=
  match dictGet item "topic" (Json.str ""), dictGet item "summary" (Json.str ""),
        dictGet item "participants" (Json.arr []) with
  | some t, some s, some p =>
    some [("meeting_id", Json.str meeting_id), ("topic", t), ("summary", s),
          ("participants", Json.str p.dumps), ("created_at", Json.str now)]
  | _, _, _ => none

/-- One `meeting_jargon` row built by `_save_summary_components`. -/
def jargon_row (meeting_id now : String) (item : Json) : Option (List (String × Json)) :=
  match dictGet item "term" (Json.str ""), dictGet item "clarification" (Json.str "") with
  | some t, some c =>
    some [("meeting_id", Json.str meeting_id), ("term", t), ("clarification", c),
          ("created_at", Json.str now)]
  | _, _ => none

/-- One of the Persister's `for` loops: build a row per entry, stopping
with an exception (`none`) when an entry is malformed. -/
def mapRows (f : Json → Option (List (String × Json))) :
    List Json → Option (List (List (String × Json)))
  | [] => some []
  | x :: xs =>
    match f x, mapRows f xs with
    | some r, some rs => some (r :: rs)
    | _, _ => none

/-- `_save_summary_components`: fan the structured summary out into the
per-concern tables, ending with exactly one unconditional `meeting_themes`
insert. `none` models an exception escaping the function (it re-raises). -/
def save_summary_components (meeting_id : String) (structured_summary : Json)
    (now : String) : Option (List Insert) :=
  match getList structured_summary "action_items" with
  | none => none
  | some ai =>
    match mapRows (action_item_row meeting_id now) ai with
    | none => none
    | some aiRows =>
      match getList structured_summary "key_decisions" with
      | none => none
      | some kd =>
        match mapRows (decision_row meeting_id now) kd with
        | none => none
        | some kdRows =>
          match getList structured_summary "discussion_points" with
          | none => none
          | some dp =>
            match mapRows (discussion_row meeting_id now) dp with
            | none => none
            | some dpRows =>
              match getList structured_summary "jargon_clarifications" with
              | none => none
              | some jc =>
                match mapRows (jargon_row meeting_id now) jc with
                | none => none
                | some jcRows =>
                  match dictGet structured_summary "themes" (Json.arr []),
                        dictGet structured_summary "context_group" (Json.str "general") with
                  | some themesJ, some cg =>
                    some (aiRows.map (fun r => ("action_items", r)) ++
                          kdRows.map (fun r => ("meeting_decisions", r)) ++
                          dpRows.map (fun r => ("meeting_discussions", r)) ++
                          jcRows.map (fun r => ("meeting_jargon", r)) ++
                          [("meeting_themes",
                            [("meeting_id", Json.str meeting_id),
                             ("themes", Json.str themesJ.dumps),
                             ("context_group", cg), ("created_at", Json.str now)])])
                  | _, _ => none

/-- The status object returned by `process_meeting_summary`. -/
structure PipelineResult where
  status : String
  error : Option String
deriving DecidableEq

/-- `process_meeting_summary`: fetch the transcripts (passed in here as the
rows the `meeting_transcripts` query returns), normalize, extract and
persist; every raise inside the `try` lands in the handler that returns a
`status = "error"` result. The returned list collects the inserts executed
before the function returned, in execution order. -/
def process_meeting_summary (model : String → Except String String)
    (transcripts : List Utterance) (meeting_id bot_id user_id now : String) :
    PipelineResult × List Insert :=
  if transcripts.isEmpty then
    ({ status := "error", error := some "No transcript data available" }, [])
  else
    match process_transcript_data transcripts with
    | none => ({ status := "error", error := some "list index out of range" }, [])
    | some transcript_text =>
      if pyStrip transcript_text = "" then
        ({ status := "error", error := some "No meaningful transcript content found" }, [])
      else
        let structured_summary := (extract_structured_summary model transcript_text).1
        match dictGet structured_summary "context_group" (Json.str "general") with
        | none =>
          ({ status := "error", error := some "AttributeError" }, [])
        | some context_group =>
          let summary_row : List (String × Json) :=
            [("meeting_id", Json.str meeting_id), ("bot_id", Json.str bot_id),
             ("summary_type", Json.str "structured_summary"),
             ("content", Json.str structured_summary.dumps),
             ("created_at", Json.str now), ("created_by", Json.str user_id),
             ("context_group", context_group)]
          match save_summary_components meeting_id structured_summary now with
          | none =>
            ({ status := "error", error := some "component write failed" },
             [("meeting_summaries", summary_row)])
          | some componentInserts =>
            ({ status := "success", error := none },
             ("meeting_summaries", summary_row) :: componentInserts)

/-- One row of the `meeting_summaries` table as selected by
`get_meeting_summaries_without_bot_id` (the `bot_id` column is excluded by
the select). -/
structure SummaryRow where
  summary_id : String
  meeting_id : String
  summary_type : String
  content : String
  created_at : String
  created_by : String
  context_group : String
deriving DecidableEq

/-- A returned summary row after the endpoint coerced `content` to JSON. -/
structure SummaryRowOut where
  summary_id : String
  meeting_id : String
  summary_type : String
  content : Json
  created_at : String
  created_by : String
  context_group : String

/-- The all-empty fallback object of `get_meeting_summaries_without_bot_id`. -/
def fallback_content : Json :=
  Json.obj [
    ("overview", Json.str ""),
    ("action_items", Json.arr []),
    ("key_decisions", Json.arr []),
    ("key_takeaways", Json.arr []),
    ("discussion_points", Json.arr []),
    ("jargon_clarifications", Json.arr []),
    ("themes", Json.arr []),
    ("context_group", Json.str "")]

/-- The per-row body of the endpoint's loop: parse `content`; a parse
failure or a non-dict parse result is replaced by `fallback_content`; every
other field passes through unchanged. -/
def coerce_summary_content (row : SummaryRow) : SummaryRowOut :=
  let parsed :=
    match jsonLoads row.content with
    | some (Json.obj fields) => Json.obj fields
    | _ => fallback_content
  { summary_id := row.summary_id, meeting_id := row.meeting_id,
    summary_type := row.summary_type, content := parsed,
    created_at := row.created_at, created_by := row.created_by,
    context_group := row.context_group }

/-- `get_meeting_summaries_without_bot_id` on the rows returned by the
database query, in query order. -/
def get_meeting_summaries_without_bot_id (rows : List SummaryRow) : List SummaryRowOut :=
  rows.map coerce_summary_content

/-- An action-item entry of the StructuredSummary data model. -/
structure ActionItem where
  description : String
  owner : String
  due_date : Option String
  priority : String
  status : String
deriving DecidableEq

/-- A key-decision entry of the StructuredSummary data model. -/
structure KeyDecision where
  decision : String
  context : String
  impact : String
deriving DecidableEq

/-- A discussion-point entry of the StructuredSummary data model. -/
structure DiscussionPoint where
  topic : String
  summary : String
  participants : List String
deriving DecidableEq

/-- A jargon-clarification entry of the StructuredSummary data model. -/
structure JargonClarification where
  term : String
  clarification : String
deriving DecidableEq

/-- The StructuredSummary document of the data model: the fixed JSON shape
the Extractor asks the model for and the Persister fans out. -/
structure StructuredSummary where
  overview : String
  action_items : List ActionItem
  key_decisions : List KeyDecision
  key_takeaways : List String
  discussion_points : List DiscussionPoint
  jargon_clarifications : List JargonClarification
  themes : List String
  context_group : String
deriving DecidableEq

/-- The JSON form of an action item. -/
def ActionItem.toJson (a : ActionItem) : Json :=
  Json.obj [("description", Json.str a.description), ("owner", Json.str a.owner),
    ("due_date", match a.due_date with | none => Json.null | some d => Json.str d),
    ("priority", Json.str a.priority), ("status", Json.str a.status)]

/-- The JSON form of a key decision. -/
def KeyDecision.toJson (k : KeyDecision) : Json :=
  Json.obj [("decision", Json.str k.decision), ("context", Json.str k.context),
    ("impact", Json.str k.impact)]

/-- The JSON form of a discussion point. -/
def DiscussionPoint.toJson (d : DiscussionPoint) : Json :=
  Json.obj [("topic", Json.str d.topic), ("summary", Json.str d.summary),
    ("participants", Json.arr (d.participants.map Json.str))]

/-- The JSON form of a jargon clarification. -/
def JargonClarification.toJson (j : JargonClarification) : Json :=
  Json.obj [("term", Json.str j.term), ("clarification", Json.str j.clarification)]

/-- The JSON document of a StructuredSummary, as handed to the Persister. -/
def StructuredSummary.toJson (s : StructuredSummary) : Json :=
  Json.obj [("overview", Json.str s.overview),
    ("action_items", Json.arr (s.action_items.map ActionItem.toJson)),
    ("key_decisions", Json.arr (s.key_decisions.map KeyDecision.toJson)),
    ("key_takeaways", Json.arr (s.key_takeaways.map Json.str)),
    ("discussion_points", Json.arr (s.discussion_points.map DiscussionPoint.toJson)),
    ("jargon_clarifications", Json.arr (s.jargon_clarifications.map JargonClarification.toJson)),
    ("themes", Json.arr (s.themes.map Json.str)),
    ("context_group", Json.str s.context_group)]

/-- Fixture: a fragment whose payload embeds one final word by Alice. -/
def uAlice : Utterance :=
  { transcript_data :=
      { participant := some { name := "Alice" },
        words := some [{ text := "Hello", start_timestamp := some 0, is_final := some true }] } }

/-- Fixture: a fragment with an explicit `speaker` field, no `participant`,
and one final word. -/
def uNoParticipant : Utterance :=
  { transcript_data :=
      { speaker := some "Bob",
        words := some [{ text := "there", start_timestamp := some 5, is_final := some true }] } }

/-- Fixture: a flat utterance-like payload carrying its own speaker, text
and timestamp but no embedded `words` list. -/
def uFlat : Utterance :=
  { transcript_data :=
      { speaker := some "Alice", text := some "Hello there", start_timestamp := some 3 },
    is_final := some true }

/-- Fixture: a fragment with one word by speaker A at timestamp 0. -/
def uTieA : Utterance :=
  { transcript_data :=
      { participant := some { name := "A" },
        words := some [{ text := "x", start_timestamp := some 0, is_final := some true }] } }

/-- Fixture: a fragment with one word by speaker B, also at timestamp 0. -/
def uTieB : Utterance :=
  { transcript_data :=
      { participant := some { name := "B" },
        words := some [{ text := "y", start_timestamp := some 0, is_final := some true }] } }

/-- Fixture: a fragment with one non-final word by Carol at timestamp 9. -/
def uDraft : Utterance :=
  { transcript_data :=
      { participant := some { name := "Carol" },
        words := some [{ text := "maybe", start_timestamp := some 9, is_final := some false }] } }

theorem sort_words_pairwise (ws : List NormalizedWord) :
    (sort_words ws).Pairwise fun a b => a.timestamp ≤ b.timestamp := by
  haveI : IsTotal NormalizedWord (fun a b => a.timestamp ≤ b.timestamp) :=
    ⟨fun a b => le_total _ _⟩
  haveI : IsTrans NormalizedWord (fun a b => a.timestamp ≤ b.timestamp) :=
    ⟨fun _ _ _ => le_trans⟩
  exact List.sorted_insertionSort _ ws

theorem sort_words_perm (ws : List NormalizedWord) : (sort_words ws).Perm ws :=
  List.perm_insertionSort _ ws

theorem orderedInsert_filter_timestamp (a : NormalizedWord) (t : Int) :
    ∀ l : List NormalizedWord,
      (List.orderedInsert (fun x y => x.timestamp ≤ y.timestamp) a l).filter
          (fun w => w.timestamp == t) =
        if a.timestamp = t then a :: l.filter (fun w => w.timestamp == t)
        else l.filter (fun w => w.timestamp == t)
  | [] => by
    by_cases h : a.timestamp = t <;>
      simp [List.orderedInsert, List.filter_cons, h]
  | b :: l => by
    have ih := orderedInsert_filter_timestamp a t l
    unfold List.orderedInsert
    by_cases hab : a.timestamp ≤ b.timestamp
    · rw [if_pos hab]
      by_cases ha : a.timestamp = t <;> by_cases hb : b.timestamp = t <;>
        simp [List.filter_cons, ha, hb]
    · rw [if_neg hab]
      by_cases ha : a.timestamp = t
      · have hb : ¬(b.timestamp = t) := fun hb' => hab (by omega)
        simp [List.filter_cons, ha, hb, ih]
      · by_cases hb : b.timestamp = t <;>
          simp [List.filter_cons, ha, hb, ih]

theorem sort_words_filter_timestamp (ws : List NormalizedWord) (t : Int) :
    (sort_words ws).filter (fun w => w.timestamp == t) =
      ws.filter (fun w => w.timestamp == t) := by
  induction ws with
  | nil => rfl
  | cons a l ih =>
    show (List.orderedInsert _ a (sort_words l)).filter _ = _
    rw [orderedInsert_filter_timestamp, ih]
    by_cases h : a.timestamp = t <;> simp [List.filter_cons, h]

theorem eq_of_sorted_perm_nodup_ts : ∀ {l₁ l₂ : List NormalizedWord},
    l₁.Pairwise (fun a b => a.timestamp ≤ b.timestamp) →
    l₂.Pairwise (fun a b => a.timestamp ≤ b.timestamp) →
    l₁.Perm l₂ →
    (l₁.map fun w => w.timestamp).Nodup →
    l₁ = l₂ := by
  intro l₁
  induction l₁ with
  | nil =>
    intro l₂ _ _ hperm _
    exact (List.perm_nil.mp hperm.symm).symm
  | cons a l₁ ih =>
    intro l₂ hs₁ hs₂ hperm hnd
    match l₂ with
    | [] => exact absurd (List.perm_nil.mp hperm) (by simp)
    | b :: l₂ =>
      have hab : a = b := by
        by_contra hne
        have hamem : a ∈ b :: l₂ := hperm.mem_iff.mp (by simp)
        have ha' : a ∈ l₂ := by
          cases hamem with
          | head => exact absurd rfl hne
          | tail _ h => exact h
        have hbmem : b ∈ a :: l₁ := hperm.mem_iff.mpr (by simp)
        have hb' : b ∈ l₁ := by
          cases hbmem with
          | head => exact absurd rfl (fun h => hne h.symm)
          | tail _ h => exact h
        have h1 : a.timestamp ≤ b.timestamp := (List.pairwise_cons.mp hs₁).1 b hb'
        have h2 : b.timestamp ≤ a.timestamp := (List.pairwise_cons.mp hs₂).1 a ha'
        have hts : a.timestamp = b.timestamp := le_antisymm h1 h2
        have : a.timestamp ∉ l₁.map fun w => w.timestamp := (List.nodup_cons.mp hnd).1
        exact this (hts ▸ List.mem_map_of_mem (fun w => w.timestamp) hb')
      subst hab
      have htail := ih (List.pairwise_cons.mp hs₁).2 (List.pairwise_cons.mp hs₂).2
        hperm.cons_inv (List.nodup_cons.mp hnd).2
      rw [htail]

theorem extract_structured_summary_of_error (model : String → Except String String)
    (text e : String) (h : model (gemini_prompt text) = Except.error e) :
    extract_structured_summary model text = (fallback_structure, 1) := by
  unfold extract_structured_summary
  rw [h]

/-- C1, counterexample: a model call that raises (a transport timeout) does
NOT propagate out of `_extract_structured_summary`; the extractor returns
the fallback structure instead, contradicting the claim as stated. -/
theorem C1_counterexample :
    extract_structured_summary (fun _ => Except.error "Read timed out") "hello" =
      (fallback_structure, 1) := rfl

/-- C1, amended: every exception raised by the model call inside
`_extract_structured_summary` is swallowed by the extractor's exception
handler exactly like a parse failure, and the fallback structure is
returned; no exception propagates to the caller. -/
theorem C1_transport_errors_swallowed (model : String → Except String String)
    (text e : String) (h : model (gemini_prompt text) = Except.error e) :
    extract_structured_summary model text = (fallback_structure, 1) :=
  extract_structured_summary_of_error model text e h

/-- C1, witness: the amended theorem applied to a concrete timing-out model. -/
theorem C1_witness :
    extract_structured_summary (fun _ => Except.error "timeout") "hi" =
      (fallback_structure, 1) :=
  C1_transport_errors_swallowed (fun _ => Except.error "timeout") "hi" "timeout" rfl

/-- C2, counterexample: with one valid transcript fragment and a model call
that raises a timeout, `process_meeting_summary` returns status "success"
(not "error") and one row IS inserted into `meeting_summaries`,
contradicting the claim as stated. -/
theorem C2_counterexample :
    (process_meeting_summary (fun _ => Except.error "Request timed out")
        [uAlice] "m1" "b1" "u1" "t0").1.status = "success" ∧
    ((process_meeting_summary (fun _ => Except.error "Request timed out")
        [uAlice] "m1" "b1" "u1" "t0").2.countP fun ins => ins.1 == "meeting_summaries") = 1 :=
  ⟨rfl, rfl⟩

/-- C2, amended: if the model call raises during summary generation, the
extractor swallows the exception into the fallback structure, so
`process_meeting_summary` still returns status "success" with no error
field, and exactly one summary row is inserted into `meeting_summaries`
(carrying the fallback content); the "error" status arises only from
failures outside the extractor. -/
theorem C2_model_error_still_success (model : String → Except String String)
    (transcripts : List Utterance) (meeting_id bot_id user_id now t e : String)
    (h1 : transcripts ≠ [])
    (h2 : process_transcript_data transcripts = some t)
    (h3 : pyStrip t ≠ "")
    (h4 : model (gemini_prompt t) = Except.error e) :
    (process_meeting_summary model transcripts meeting_id bot_id user_id now).1 =
      { status := "success", error := none } ∧
    ((process_meeting_summary model transcripts meeting_id bot_id user_id now).2.countP
      fun ins => ins.1 == "meeting_summaries") = 1 := by
  obtain ⟨a, l, rfl⟩ : ∃ a l, transcripts = a :: l := by
    cases transcripts with
    | nil => exact absurd rfl h1
    | cons a l => exact ⟨a, l, rfl⟩
  have hex := extract_structured_summary_of_error model t e h4
  unfold process_meeting_summary
  simp only [h2]
  rw [if_neg h3]
  simp only [hex]
  exact ⟨rfl, rfl⟩

/-- C2, witness: the amended theorem at a concrete fragment and a concrete
raising model. -/
theorem C2_witness :
    (process_meeting_summary (fun _ => Except.error "boom") [uAlice] "m" "b" "u" "t").1 =
      { status := "success", error := none } ∧
    ((process_meeting_summary (fun _ => Except.error "boom") [uAlice] "m" "b" "u" "t").2.countP
      fun ins => ins.1 == "meeting_summaries") = 1 :=
  C2_model_error_still_success (fun _ => Except.error "boom") [uAlice] "m" "b" "u" "t"
    "Alice: Hello" "boom" (by simp) rfl (by decide) rfl

/-- C3, counterexample: on a whitespace-only input text the extractor does
call the external model (call count 1, not 0) and returns the parsed model
response rather than the fallback structure, contradicting the claim as
stated. -/
theorem C3_counterexample :
    (extract_structured_summary (fun _ => Except.ok "\x7b\"overview\": \"x\"\x7d") "   ").2 = 1 ∧
    (extract_structured_summary (fun _ => Except.ok "\x7b\"overview\": \"x\"\x7d") "   ").1 =
      Json.obj [("overview", Json.str "x")] :=
  ⟨rfl, rfl⟩

/-- C3, amended: `_extract_structured_summary` performs no emptiness check
and always makes exactly one model call, for every input text including
empty or whitespace-only ones; the empty-transcript guard lives upstream in
`process_meeting_summary`, which fails with "No meaningful transcript
content found" (inserting nothing) before the extractor is ever reached. -/
theorem C3_extractor_always_calls_model (model : String → Except String String)
    (text : String) (transcripts : List Utterance) (meeting_id bot_id user_id now t : String)
    (h1 : transcripts ≠ [])
    (h2 : process_transcript_data transcripts = some t)
    (h3 : pyStrip t = "") :
    (extract_structured_summary model text).2 = 1 ∧
    process_meeting_summary model transcripts meeting_id bot_id user_id now =
      ({ status := "error", error := some "No meaningful transcript content found" }, []) := by
  constructor
  · unfold extract_structured_summary
    cases model (gemini_prompt text) with
    | error e => rfl
    | ok r =>
      show (match jsonLoads (clean_model_response r) with
        | some structured_data => (structured_data, 1)
        | none => (fallback_structure, 1)).2 = 1
      cases jsonLoads (clean_model_response r) with
      | none => rfl
      | some j => rfl
  · obtain ⟨a, l, rfl⟩ : ∃ a l, transcripts = a :: l := by
      cases transcripts with
      | nil => exact absurd rfl h1
      | cons a l => exact ⟨a, l, rfl⟩
    unfold process_meeting_summary
    simp only [h2]
    rw [if_pos h3]
    rfl

/-- C3, witness: the amended theorem at a fragment set whose normalized
text is empty (a fragment with no words list). -/
theorem C3_witness :
    (extract_structured_summary (fun _ => Except.ok "x") "  ").2 = 1 ∧
    process_meeting_summary (fun _ => Except.ok "x") [uFlat] "m" "b" "u" "t" =
      ({ status := "error", error := some "No meaningful transcript content found" }, []) :=
  C3_extractor_always_calls_model (fun _ => Except.ok "x") "  " [uFlat] "m" "b" "u" "t" ""
    (by simp) rfl rfl

/-- C4, counterexample: a flat utterance-like payload that carries its own
speaker, text and timestamp but no embedded `words` list yields no
extracted word at all, and the normalized output of such a fragment set is
the empty string — the entry is dropped, contradicting the claim as
stated. -/
theorem C4_counterexample :
    extract_words uFlat = [] ∧ process_transcript_data [uFlat] = some "" :=
  ⟨rfl, rfl⟩

/-- C4, amended: only fragments whose payload carries a non-empty `words`
list contribute to the normalized output; a fragment without a `words` list
(in particular a flat utterance-like entry with its own speaker, text and
timestamp) is silently dropped and contributes nothing. -/
theorem C4_flat_entries_dropped (u : Utterance) (us : List Utterance)
    (h : u.transcript_data.words = none ∨ u.transcript_data.words = some []) :
    extract_words u = [] ∧ normalizer_all_words (u :: us) = normalizer_all_words us := by
  have hz : extract_words u = [] := by
    unfold extract_words
    rcases h with h | h <;> rw [h]
  refine ⟨hz, ?_⟩
  unfold normalizer_all_words
  rw [List.flatMap_cons, hz, List.nil_append]

/-- C4, witness: the amended theorem at the concrete flat fragment. -/
theorem C4_witness :
    extract_words uFlat = [] ∧
    normalizer_all_words [uFlat, uAlice] = normalizer_all_words [uAlice] :=
  C4_flat_entries_dropped uFlat [uAlice] (Or.inl rfl)

/-- C5, counterexample: a payload with an explicit `speaker` field ("Bob")
and no participant yields an extracted word whose speaker label is `none`,
rendered as the text "None" — the `speaker` field is ignored and no
"Unknown" default exists, contradicting the claim as stated. -/
theorem C5_counterexample :
    uNoParticipant.transcript_data.speaker = some "Bob" ∧
    (extract_words uNoParticipant).map NormalizedWord.speaker = [none] ∧
    process_transcript_data [uAlice, uNoParticipant] = some "Alice: Hello\nNone: there" :=
  ⟨rfl, rfl, rfl⟩

/-- C5, amended: the speaker label of every extracted word is exactly the
`participant` object's name when a participant is present and `None`
(rendered as the text "None") otherwise; the payload's `speaker` field is
never consulted and no "Unknown" label exists. -/
theorem C5_speaker_from_participant_only (u : Utterance) (w : NormalizedWord)
    (h : w ∈ extract_words u) :
    w.speaker = u.transcript_data.participant.map Participant.name := by
  unfold extract_words at h
  cases hw : u.transcript_data.words with
  | none =>
    rw [hw] at h
    simp at h
  | some l =>
    cases l with
    | nil =>
      rw [hw] at h
      simp at h
    | cons x xs =>
      rw [hw] at h
      obtain ⟨a, _, rfl⟩ := List.mem_map.mp h
      rfl

/-- C5, witness: the amended theorem at the concrete participant-less
fragment and its extracted word. -/
theorem C5_witness :
    ({ text := "there", speaker := none, timestamp := 5, is_final := true } :
        NormalizedWord).speaker =
      uNoParticipant.transcript_data.participant.map Participant.name :=
  C5_speaker_from_participant_only uNoParticipant
    { text := "there", speaker := none, timestamp := 5, is_final := true } (by decide)

/-- C6, counterexample: two fragments with one word each at the same
timestamp, fed in the two possible orders, yield different normalized
output — the claim that every permutation of the fragment set produces
identical output is false (the stable sort keeps equal-timestamp words in
arrival order). -/
theorem C6_counterexample :
    process_transcript_data [uTieA, uTieB] = some "A: x\nB: y" ∧
    process_transcript_data [uTieB, uTieA] = some "B: y\nA: x" ∧
    process_transcript_data [uTieA, uTieB] ≠ process_transcript_data [uTieB, uTieA] :=
  ⟨rfl, rfl, by decide⟩

/-- C6, amended: the extracted words always appear in non-decreasing order
of source timestamp, ties preserving the original relative order (the
sorted list is a stable permutation of the extraction-order list); output
is invariant under permutations of the fragment set only when the extracted
timestamps are pairwise distinct — with equal timestamps, words keep
arrival order and permutations can change the output. -/
theorem C6_sorted_stable_perm (transcripts transcripts' : List Utterance) (t : Int)
    (hperm : transcripts.Perm transcripts')
    (hnodup : ((transcripts.flatMap extract_words).map fun w => w.timestamp).Nodup) :
    (normalizer_all_words transcripts).Pairwise (fun a b => a.timestamp ≤ b.timestamp) ∧
    (normalizer_all_words transcripts).filter (fun w => w.timestamp == t) =
      (transcripts.flatMap extract_words).filter (fun w => w.timestamp == t) ∧
    (normalizer_all_words transcripts).Perm (transcripts.flatMap extract_words) ∧
    process_transcript_data transcripts = process_transcript_data transcripts' := by
  refine ⟨sort_words_pairwise _, sort_words_filter_timestamp _ t, sort_words_perm _, ?_⟩
  have hw : (transcripts.flatMap extract_words).Perm (transcripts'.flatMap extract_words) :=
    hperm.flatMap_right extract_words
  have heq : normalizer_all_words transcripts = normalizer_all_words transcripts' := by
    apply eq_of_sorted_perm_nodup_ts (sort_words_pairwise _) (sort_words_pairwise _)
    · exact (sort_words_perm _).trans (hw.trans (sort_words_perm _).symm)
    · exact (((sort_words_perm (transcripts.flatMap extract_words)).map
        fun w => w.timestamp).nodup_iff).mpr hnodup
  unfold process_transcript_data normalizer_selected_words
  rw [heq]

/-- C6, witness: the amended theorem at two concrete fragment sets that are
permutations of each other with distinct timestamps (0 and 5). -/
theorem C6_witness :
    (normalizer_all_words [uAlice, uNoParticipant]).Pairwise
      (fun a b => a.timestamp ≤ b.timestamp) ∧
    (normalizer_all_words [uAlice, uNoParticipant]).filter (fun w => w.timestamp == 0) =
      ([uAlice, uNoParticipant].flatMap extract_words).filter (fun w => w.timestamp == 0) ∧
    (normalizer_all_words [uAlice, uNoParticipant]).Perm
      ([uAlice, uNoParticipant].flatMap extract_words) ∧
    process_transcript_data [uAlice, uNoParticipant] =
      process_transcript_data [uNoParticipant, uAlice] :=
  C6_sorted_stable_perm [uAlice, uNoParticipant] [uNoParticipant, uAlice] 0
    (by decide) (by decide)

/-- C7: the finality filter is total — if any extracted word is final, the
words used for grouping and rendering contain no non-final word; if no
extracted word is final, all extracted words are kept. -/
theorem C7_finality_filter_total (transcripts : List Utterance) :
    ((∃ w ∈ normalizer_all_words transcripts, w.is_final = true) →
      ∀ w ∈ normalizer_selected_words transcripts, w.is_final = true) ∧
    ((∀ w ∈ normalizer_all_words transcripts, w.is_final = false) →
      normalizer_selected_words transcripts = normalizer_all_words transcripts) := by
  constructor
  · rintro ⟨w₀, hw₀, hfin⟩ w hw
    simp only [normalizer_selected_words] at hw
    by_cases he : ((normalizer_all_words transcripts).filter fun w => w.is_final).isEmpty
    · exfalso
      have hmem : w₀ ∈ (normalizer_all_words transcripts).filter fun w => w.is_final :=
        List.mem_filter.mpr ⟨hw₀, hfin⟩
      rw [List.isEmpty_iff] at he
      rw [he] at hmem
      exact List.not_mem_nil _ hmem
    · rw [if_neg he] at hw
      exact (List.mem_filter.mp hw).2
  · intro hall
    simp only [normalizer_selected_words]
    have hnil : ((normalizer_all_words transcripts).filter fun w => w.is_final) = [] :=
      List.filter_eq_nil_iff.mpr fun a ha => by rw [hall a ha]; exact Bool.false_ne_true
    rw [hnil]
    rfl

/-- C7, witness: the first part of the theorem at a fragment set holding
one final and one non-final word. -/
theorem C7_witness :
    ∀ w ∈ normalizer_selected_words [uAlice, uDraft], w.is_final = true :=
  (C7_finality_filter_total [uAlice, uDraft]).1 (by decide)

/-- C8: a model response wrapped in a markdown code fence (leading
"```json", trailing "```") has the fence stripped and the inner JSON object
is parsed and returned; on the claim's example the returned object's
overview field is "x". -/
theorem C8_fence_stripping (model : String → Except String String) (text : String)
    (h : model (gemini_prompt text) =
      Except.ok "```json\n\x7b\"overview\": \"x\", \"themes\": []\x7d\n```") :
    extract_structured_summary model text =
      (Json.obj [("overview", Json.str "x"), ("themes", Json.arr [])], 1) := by
  unfold extract_structured_summary
  rw [h]
  rfl

/-- C8, witness: the theorem at a concrete model returning the fenced
response. -/
theorem C8_witness :
    extract_structured_summary
        (fun _ => Except.ok "```json\n\x7b\"overview\": \"x\", \"themes\": []\x7d\n```")
        "some transcript" =
      (Json.obj [("overview", Json.str "x"), ("themes", Json.arr [])], 1) :=
  C8_fence_stripping
    (fun _ => Except.ok "```json\n\x7b\"overview\": \"x\", \"themes\": []\x7d\n```")
    "some transcript" rfl

/-- The `action_items` row the Persister builds for a well-formed entry. -/
def actionRowOf (mid now : String) (a : ActionItem) : List (String × Json) :=
  [("meeting_id", Json.str mid), ("description", Json.str a.description),
   ("owner", Json.str a.owner),
   ("due_date", match a.due_date with | none => Json.null | some d => Json.str d),
   ("priority", Json.str a.priority), ("status", Json.str a.status),
   ("created_at", Json.str now)]

/-- The `meeting_decisions` row the Persister builds for a well-formed entry. -/
def decisionRowOf (mid now : String) (k : KeyDecision) : List (String × Json) :=
  [("meeting_id", Json.str mid), ("decision", Json.str k.decision),
   ("context", Json.str k.context), ("impact", Json.str k.impact),
   ("created_at", Json.str now)]

/-- The `meeting_discussions` row the Persister builds for a well-formed entry. -/
def discussionRowOf (mid now : String) (d : DiscussionPoint) : List (String × Json) :=
  [("meeting_id", Json.str mid), ("topic", Json.str d.topic),
   ("summary", Json.str d.summary),
   ("participants", Json.str (Json.arr (d.participants.map Json.str)).dumps),
   ("created_at", Json.str now)]

/-- The `meeting_jargon` row the Persister builds for a well-formed entry. -/
def jargonRowOf (mid now : String) (j : JargonClarification) : List (String × Json) :=
  [("meeting_id", Json.str mid), ("term", Json.str j.term),
   ("clarification", Json.str j.clarification), ("created_at", Json.str now)]

theorem action_item_row_toJson (mid now : String) (a : ActionItem) :
    action_item_row mid now a.toJson = some (actionRowOf mid now a) := rfl

theorem decision_row_toJson (mid now : String) (k : KeyDecision) :
    decision_row mid now k.toJson = some (decisionRowOf mid now k) := rfl

theorem discussion_row_toJson (mid now : String) (d : DiscussionPoint) :
    discussion_row mid now d.toJson = some (discussionRowOf mid now d) := rfl

theorem jargon_row_toJson (mid now : String) (j : JargonClarification) :
    jargon_row mid now j.toJson = some (jargonRowOf mid now j) := rfl

theorem mapRows_map {α : Type} (f : Json → Option (List (String × Json))) (g : α → Json)
    (rowOf : α → List (String × Json)) (hf : ∀ a, f (g a) = some (rowOf a)) :
    ∀ l : List α, mapRows f (l.map g) = some (l.map rowOf)
  | [] => rfl
  | a :: l => by
    rw [List.map_cons, List.map_cons]
    show mapRows f (g a :: l.map g) = _
    unfold mapRows
    rw [hf a, mapRows_map f g rowOf hf l]

theorem getList_toJson_action_items (s : StructuredSummary) :
    getList s.toJson "action_items" = some (s.action_items.map ActionItem.toJson) := rfl

theorem getList_toJson_key_decisions (s : StructuredSummary) :
    getList s.toJson "key_decisions" = some (s.key_decisions.map KeyDecision.toJson) := rfl

theorem getList_toJson_discussion_points (s : StructuredSummary) :
    getList s.toJson "discussion_points" =
      some (s.discussion_points.map DiscussionPoint.toJson) := rfl

theorem getList_toJson_jargon (s : StructuredSummary) :
    getList s.toJson "jargon_clarifications" =
      some (s.jargon_clarifications.map JargonClarification.toJson) := rfl

theorem save_summary_components_toJson (mid now : String) (s : StructuredSummary) :
    save_summary_components mid s.toJson now =
      some ((s.action_items.map fun a => (("action_items" : String), actionRowOf mid now a)) ++
            (s.key_decisions.map fun k => (("meeting_decisions" : String), decisionRowOf mid now k)) ++
            (s.discussion_points.map fun d => (("meeting_discussions" : String), discussionRowOf mid now d)) ++
            (s.jargon_clarifications.map fun j => (("meeting_jargon" : String), jargonRowOf mid now j)) ++
            [("meeting_themes",
              [("meeting_id", Json.str mid),
               ("themes", Json.str (Json.arr (s.themes.map Json.str)).dumps),
               ("context_group", Json.str s.context_group),
               ("created_at", Json.str now)])]) := by
  unfold save_summary_components
  simp only [getList_toJson_action_items, getList_toJson_key_decisions,
    getList_toJson_discussion_points, getList_toJson_jargon,
    mapRows_map _ _ _ (action_item_row_toJson mid now),
    mapRows_map _ _ _ (decision_row_toJson mid now),
    mapRows_map _ _ _ (discussion_row_toJson mid now),
    mapRows_map _ _ _ (jargon_row_toJson mid now),
    List.map_map]
  rfl

/-- C9: for every StructuredSummary, the Persister writes exactly one
`meeting_themes` row (even when the themes list is empty), and with an
empty `action_items` list it writes zero `action_items` rows and raises no
exception. -/
theorem C9_persister_rows (mid now : String) (s : StructuredSummary) :
    ∃ inserts, save_summary_components mid s.toJson now = some inserts ∧
      (inserts.countP fun i => i.1 == "meeting_themes") = 1 ∧
      (s.action_items = [] → (inserts.countP fun i => i.1 == "action_items") = 0) := by
  refine ⟨_, save_summary_components_toJson mid now s, ?_, ?_⟩
  · simp [List.countP_append, List.countP_map, Function.comp_def, List.countP_eq_zero]
  · intro h
    simp [h, List.countP_append, List.countP_map, Function.comp_def, List.countP_eq_zero]

/-- Fixture: a structured summary with empty action items and a non-empty
themes list. -/
def sWit : StructuredSummary :=
  { overview := "o", action_items := [], key_decisions := [], key_takeaways := [],
    discussion_points := [], jargon_clarifications := [], themes := ["t1"],
    context_group := "general" }

/-- C9, witness: the theorem at a concrete summary with empty action items. -/
theorem C9_witness :
    ∃ inserts, save_summary_components "m1" sWit.toJson "t1" = some inserts ∧
      (inserts.countP fun i => i.1 == "meeting_themes") = 1 ∧
      (sWit.action_items = [] → (inserts.countP fun i => i.1 == "action_items") = 0) :=
  C9_persister_rows "m1" "t1" sWit

/-- C10: every row returned by the summaries endpoint carries a JSON object
as its content — the stored content string parsed when it is a JSON object,
and the fixed all-empty fallback object otherwise — while all other row
fields pass through unchanged. -/
theorem C10_content_always_object (rows : List SummaryRow) (out : SummaryRowOut)
    (h : out ∈ get_meeting_summaries_without_bot_id rows) :
    (∃ fields, out.content = Json.obj fields) ∧
    ∃ row, row ∈ rows ∧ out.summary_id = row.summary_id ∧
      out.meeting_id = row.meeting_id ∧ out.summary_type = row.summary_type ∧
      out.created_at = row.created_at ∧ out.created_by = row.created_by ∧
      out.context_group = row.context_group ∧
      ((∃ fields, jsonLoads row.content = some (Json.obj fields) ∧
          out.content = Json.obj fields) ∨
        ((¬ ∃ fields, jsonLoads row.content = some (Json.obj fields)) ∧
          out.content = fallback_content)) := by
  obtain ⟨row, hrow, rfl⟩ := List.mem_map.mp h
  refine ⟨?_, row, hrow, rfl, rfl, rfl, rfl, rfl, rfl, ?_⟩ <;>
    · unfold coerce_summary_content
      cases hj : jsonLoads row.content with
      | none => simp [hj, fallback_content]
      | some v =>
        cases v <;> simp [hj, fallback_content]

/-- Fixture: a summary row whose stored content does not parse as JSON. -/
def badSummaryRow : SummaryRow :=
  { summary_id := "s1", meeting_id := "m1", summary_type := "structured_summary",
    content := "not json", created_at := "t", created_by := "u", context_group := "g" }

/-- C10, witness: the theorem at a one-row table whose content string is
unparsable; the returned content is the fallback object. -/
theorem C10_witness :
    (∃ fields, (coerce_summary_content badSummaryRow).content = Json.obj fields) ∧
    ∃ row, row ∈ [badSummaryRow] ∧
      (coerce_summary_content badSummaryRow).summary_id = row.summary_id ∧
      (coerce_summary_content badSummaryRow).meeting_id = row.meeting_id ∧
      (coerce_summary_content badSummaryRow).summary_type = row.summary_type ∧
      (coerce_summary_content badSummaryRow).created_at = row.created_at ∧
      (coerce_summary_content badSummaryRow).created_by = row.created_by ∧
      (coerce_summary_content badSummaryRow).context_group = row.context_group ∧
      ((∃ fields, jsonLoads row.content = some (Json.obj fields) ∧
          (coerce_summary_content badSummaryRow).content = Json.obj fields) ∨
        ((¬ ∃ fields, jsonLoads row.content = some (Json.obj fields)) ∧
          (coerce_summary_content badSummaryRow).content = fallback_content)) :=
  C10_content_always_object [badSummaryRow] (coerce_summary_content badSummaryRow)
    (List.mem_map_of_mem coerce_summary_content (List.mem_singleton.mpr rfl))

end Momentum
